import Mathlib

/-!
Verification development for the statistical speaker-verification pipeline of the
Voice-Authentication-System repository.  The Python sources are shallowly embedded:
NumPy arrays become `List ℚ` (or `List (List ℚ)` for matrices), machine floats become
exact rationals, Python exceptions become `Except`/structured results, and external
library calls (SpeechBrain similarity, sklearn `GaussianMixture.score`, librosa
loading) are abstracted as function parameters where their internals do not decide
the property at hand.
-/

namespace VoiceAuth

/-- Exceptions that the embedded numerical code can raise.  `zeroDivisionError` is
Python's `ZeroDivisionError` from `len(audio) // frame_size` with `frame_size = 0`;
`valueErrorSectionsNotPositive` is NumPy's `ValueError` from `np.array_split(x, 0)`;
`valueErrorEmptyConcat` is NumPy's `ValueError` from `np.concatenate([])`. -/
inductive PyError where
  | zeroDivisionError : PyError
  | valueErrorSectionsNotPositive : PyError
  | valueErrorEmptyConcat : PyError
deriving DecidableEq

/-- Splitting a list into `n` consecutive chunks of `fs` elements each.  This is
`np.array_split(x, n)` on an array whose length is exactly `n * fs` (the VAD always
calls it that way, after truncating the trailing partial frame). -/
def chunkList (l : List ℚ) (fs : Nat) : Nat → List (List ℚ)
  | 0 => []
  | n + 1 => l.take fs :: chunkList (l.drop fs) fs n

/-- Mean-squared energy of one frame: `np.sum(frame**2) / len(frame)`
(`vad.py`, line 24).  On the empty frame the total rational division gives `0`. -/
def frameEnergy (frame : List ℚ) : ℚ :=
  (frame.map fun x => x * x).sum / (frame.length : ℚ)

/-- Frame size in samples: `int(frame_duration * sampling_rate)` (`vad.py`, line 17).
Python `int` truncates toward zero; on the nonnegative products used here this is the
floor. -/
def vadFrameSize (frameDuration samplingRate : ℚ) : Nat :=
  (⌊frameDuration * samplingRate⌋).toNat

/-- The frames the VAD analyses: `np.array_split(audio[:n_frames * frame_size],
n_frames)` with `n_frames = len(audio) // frame_size` (`vad.py`, lines 20-21). -/
def vadFrames (audio : List ℚ) (fs : Nat) : List (List ℚ) :=
  chunkList (audio.take ((audio.length / fs) * fs)) fs (audio.length / fs)

/-- Maximum of a nonempty list of rationals, as `np.max` (`vad.py`, line 27).
The `[]` case is unreachable in `detect_speech` because the `n_frames = 0` case
raises first; it is given the value `0` to keep the function total. -/
def maxList : List ℚ → ℚ
  | [] => 0
  | [x] => x
  | x :: y :: t => max x (maxList (y :: t))

/-- Per-frame energies of the VAD: `np.array([np.sum(frame**2) / len(frame) for
frame in frames])` (`vad.py`, line 24). -/
def vadEnergies (audio : List ℚ) (fs : Nat) : List ℚ :=
  (vadFrames audio fs).map frameEnergy

/-- The max-energy normalisation denominator `np.max(energies)` (`vad.py`, line 27).
The source divides by it with no guard. -/
def vadMaxEnergy (audio : List ℚ) (fs : Nat) : ℚ :=
  maxList (vadEnergies audio fs)

/-- Frames kept by the VAD: the comprehension `[frames[i] for i in range(len(frames))
if speech_mask[i]]` with `speech_mask = (energies / np.max(energies)) >
min_speech_energy` (`vad.py`, lines 27-33).  Since `energies` is the elementwise
image of `frames` under `frameEnergy`, the comprehension is the filter of `frames`
by the normalised-energy test.  When every energy is `0` NumPy's `0.0/0.0` is `NaN`
and `NaN > t` is `False`; the embedding's total division `0 / 0 = 0` with
`0 > t = False` yields the identical all-`False` mask in that case. -/
def vadKeptFrames (audio : List ℚ) (fs : Nat) (minSpeechEnergy : ℚ) : List (List ℚ) :=
  (vadFrames audio fs).filter fun f =>
    decide (minSpeechEnergy < frameEnergy f / vadMaxEnergy audio fs)

/-- Energy-based voice activity detection, `vad.py detect_speech`.  Python defaults:
`frame_duration = 0.02 = 1/50`, `min_speech_energy = 0.01 = 1/100` (passed explicitly
here).  Returns the concatenation of the kept frames (`np.concatenate`, line 33), or
the exception the source raises: `ZeroDivisionError` when `frame_size = 0`,
`ValueError` from `np.array_split` when `n_frames = 0`, and `ValueError` from
`np.concatenate([])` when no frame passes the energy test — the source has no guard
for the all-silent case. -/
def detect_speech (audio : List ℚ) (samplingRate frameDuration minSpeechEnergy : ℚ) :
    Except PyError (List ℚ) :=
  if vadFrameSize frameDuration samplingRate = 0 then
    .error .zeroDivisionError
  else if audio.length / vadFrameSize frameDuration samplingRate = 0 then
    .error .valueErrorSectionsNotPositive
  else if (vadKeptFrames audio (vadFrameSize frameDuration samplingRate) minSpeechEnergy).isEmpty then
    .error .valueErrorEmptyConcat
  else
    .ok (vadKeptFrames audio (vadFrameSize frameDuration samplingRate) minSpeechEnergy).flatten

theorem le_maxList : ∀ {l : List ℚ} {x : ℚ}, x ∈ l → x ≤ maxList l := by
  intro l
  induction l with
  | nil => intro x hx; cases hx
  | cons a t ih =>
    intro x hx
    cases t with
    | nil =>
      rcases List.mem_singleton.mp hx with rfl
      exact le_of_eq rfl
    | cons b t' =>
      rcases List.mem_cons.mp hx with rfl | hmem
      · exact le_max_left _ _
      · exact le_trans (ih hmem) (le_max_right _ _)

theorem maxList_mem : ∀ {l : List ℚ}, l ≠ [] → maxList l ∈ l := by
  intro l
  induction l with
  | nil => intro h; exact absurd rfl h
  | cons a t ih =>
    intro _
    cases t with
    | nil => exact List.mem_singleton.mpr rfl
    | cons b t' =>
      have hm : maxList (a :: b :: t') = max a (maxList (b :: t')) := rfl
      rcases max_choice a (maxList (b :: t')) with h | h
      · rw [hm, h]; exact List.mem_cons_self _ _
      · rw [hm, h]; exact List.mem_cons_of_mem _ (ih (by simp))

/-- C1: the claim fails on the code.  On the all-silent input `audio = [0, 0, 0]` at
sampling rate 50 (three complete zero-energy frames, default frame duration 0.02 and
default threshold 0.01), the max-energy denominator `np.max(energies)` is `0` — the
division `energies / np.max(energies)` is unguarded — and `detect_speech` then raises
`ValueError` from `np.concatenate([])` instead of signalling a recoverable
no-speech condition to the caller. -/
theorem detect_speech_all_silent_raises :
    vadMaxEnergy [0, 0, 0] (vadFrameSize (1/50) 50) = 0 ∧
    detect_speech [0, 0, 0] 50 (1/50) (1/100) =
      Except.error PyError.valueErrorEmptyConcat := by
  have hfs : vadFrameSize (1/50) 50 = 1 := by
    norm_num [vadFrameSize]
  have hframes : vadFrames [0, 0, 0] 1 = [[0], [0], [0]] := by
    norm_num [vadFrames, chunkList]
  have hmax : vadMaxEnergy [0, 0, 0] 1 = 0 := by
    rw [vadMaxEnergy, vadEnergies, hframes]
    norm_num [frameEnergy, maxList]
  have hkept : vadKeptFrames [0, 0, 0] 1 (1/100) = [] := by
    rw [vadKeptFrames, hframes, hmax]
    norm_num [frameEnergy]
  refine ⟨hfs ▸ hmax, ?_⟩
  unfold detect_speech
  rw [hfs]
  simp only [one_div] at hkept ⊢
  simp [hkept]

/-- C10: whenever some complete frame has strictly positive energy (and the frame
size is nonzero, as at any real sampling rate), `detect_speech` with the default
threshold 0.01 succeeds with a non-empty output: the maximum-energy frame has
normalised energy exactly 1 > 0.01, so it is always kept and the
empty-concatenation branch is unreachable. -/
theorem detect_speech_positive_energy_frame (audio : List ℚ) (samplingRate : ℚ)
    (hfs : vadFrameSize (1/50) samplingRate ≠ 0)
    (hpos : ∃ f ∈ vadFrames audio (vadFrameSize (1/50) samplingRate), 0 < frameEnergy f) :
    ∃ s, detect_speech audio samplingRate (1/50) (1/100) = Except.ok s ∧ s ≠ [] := by
  obtain ⟨f, hf, hfpos⟩ := hpos
  set fs := vadFrameSize (1/50) samplingRate with hfsdef
  have hframes_ne : vadFrames audio fs ≠ [] := List.ne_nil_of_mem hf
  have hn : audio.length / fs ≠ 0 := by
    intro h0
    apply hframes_ne
    rw [vadFrames, h0]
    rfl
  have hmax_pos : 0 < vadMaxEnergy audio fs :=
    lt_of_lt_of_le hfpos (le_maxList (List.mem_map_of_mem frameEnergy hf))
  have hEne : vadEnergies audio fs ≠ [] := by
    rw [vadEnergies]
    simpa using hframes_ne
  obtain ⟨g, hg, hgE⟩ := List.mem_map.mp (maxList_mem hEne)
  have hgE' : frameEnergy g = vadMaxEnergy audio fs := by
    rw [vadMaxEnergy, vadEnergies]
    exact hgE
  have hgkeep : decide ((1:ℚ)/100 < frameEnergy g / vadMaxEnergy audio fs) = true := by
    rw [decide_eq_true_eq, hgE', div_self (ne_of_gt hmax_pos)]
    norm_num
  have hkept : g ∈ vadKeptFrames audio fs (1/100) :=
    List.mem_filter.mpr ⟨hg, hgkeep⟩
  have hkept_ne : vadKeptFrames audio fs (1/100) ≠ [] := List.ne_nil_of_mem hkept
  have hg_ne : g ≠ [] := by
    intro h
    rw [h] at hgE'
    rw [← hgE'] at hmax_pos
    simp [frameEnergy] at hmax_pos
  refine ⟨(vadKeptFrames audio fs (1/100)).flatten, ?_, ?_⟩
  · unfold detect_speech
    rw [← hfsdef, if_neg hfs, if_neg hn,
      if_neg (by simpa [List.isEmpty_iff] using hkept_ne)]
  · intro hjoin
    rw [List.flatten_eq_nil_iff] at hjoin
    exact hg_ne (hjoin g hkept)

/-- Witness for C10 at the concrete input `audio = [1]`, sampling rate 50. -/
theorem detect_speech_positive_energy_frame_witness :
    ∃ s, detect_speech [1] 50 (1/50) (1/100) = Except.ok s ∧ s ≠ [] := by
  have hfs : vadFrameSize (1/50) 50 = 1 := by norm_num [vadFrameSize]
  refine detect_speech_positive_energy_frame [1] 50 (by rw [hfs]; norm_num) ?_
  refine ⟨[1], ?_, by norm_num [frameEnergy]⟩
  rw [hfs]
  norm_num [vadFrames, chunkList]

/-- Delta features, `feature_extraction.py calculate_delta`: row `0` and the last
row are copied unchanged, and every interior row `i` is
`(features[i + 1] - features[i - 1]) / 2` (elementwise on the row vectors). -/
def calculate_delta (features : List (List ℚ)) : List (List ℚ) :=
  (List.range features.length).map fun i =>
    if i = 0 then features.getD i []
    else if i = features.length - 1 then features.getD i []
    else List.zipWith (fun a b => (a - b) / 2) (features.getD (i + 1) []) (features.getD (i - 1) [])

theorem calculate_delta_getD (features : List (List ℚ)) {i : Nat}
    (hi : i < features.length) :
    (calculate_delta features).getD i [] =
      if i = 0 then features.getD i []
      else if i = features.length - 1 then features.getD i []
      else List.zipWith (fun a b => (a - b) / 2)
        (features.getD (i + 1) []) (features.getD (i - 1) []) := by
  have hlen : (calculate_delta features).length = features.length := by
    simp [calculate_delta]
  rw [List.getD_eq_getElem _ _ (hlen ▸ hi)]
  simp [calculate_delta]

/-- C5: for every feature matrix with at least one row, the delta computation copies
the first and the last row unchanged, and every interior row is the central
difference `(next - prev) / 2`; the output has one delta row per input row. -/
theorem calculate_delta_spec (features : List (List ℚ)) (h : features ≠ []) :
    (calculate_delta features).length = features.length ∧
    (calculate_delta features).getD 0 [] = features.getD 0 [] ∧
    (calculate_delta features).getD (features.length - 1) [] =
      features.getD (features.length - 1) [] ∧
    ∀ i, 0 < i → i < features.length - 1 →
      (calculate_delta features).getD i [] =
        List.zipWith (fun a b => (a - b) / 2)
          (features.getD (i + 1) []) (features.getD (i - 1) []) := by
  have hpos : 0 < features.length := List.length_pos.mpr h
  refine ⟨by simp [calculate_delta], ?_, ?_, ?_⟩
  · rw [calculate_delta_getD features hpos]
    simp
  · rw [calculate_delta_getD features (Nat.sub_lt hpos Nat.one_pos)]
    split
    · simp_all
    · simp
  · intro i hi0 hilast
    rw [calculate_delta_getD features (lt_of_lt_of_le hilast (Nat.sub_le _ _))]
    rw [if_neg (Nat.pos_iff_ne_zero.mp hi0), if_neg (Nat.ne_of_lt hilast)]

/-- Witness for C5 at the concrete 3-row matrix `[[1], [2], [4]]`. -/
theorem calculate_delta_spec_witness :
    ([[1], [2], [4]] : List (List ℚ)) ≠ [] ∧
    ((calculate_delta [[1], [2], [4]]).length = ([[1], [2], [4]] : List (List ℚ)).length ∧
     (calculate_delta [[1], [2], [4]]).getD 0 [] = ([[1], [2], [4]] : List (List ℚ)).getD 0 [] ∧
     (calculate_delta [[1], [2], [4]]).getD (([[1], [2], [4]] : List (List ℚ)).length - 1) [] =
       ([[1], [2], [4]] : List (List ℚ)).getD (([[1], [2], [4]] : List (List ℚ)).length - 1) [] ∧
     ∀ i, 0 < i → i < ([[1], [2], [4]] : List (List ℚ)).length - 1 →
       (calculate_delta [[1], [2], [4]]).getD i [] =
         List.zipWith (fun a b => (a - b) / 2)
           (([[1], [2], [4]] : List (List ℚ)).getD (i + 1) [])
           (([[1], [2], [4]] : List (List ℚ)).getD (i - 1) [])) :=
  ⟨by simp, calculate_delta_spec [[1], [2], [4]] (by simp)⟩

/-- Population variance of a list of values, `np.var` with the default `ddof = 0`:
mean of squared deviations from the mean. -/
def npVar (xs : List ℚ) : ℚ :=
  (xs.map fun x => (x - xs.sum / (xs.length : ℚ)) * (x - xs.sum / (xs.length : ℚ))).sum /
    (xs.length : ℚ)

/-- Column `j` of a feature matrix stored as a list of rows. -/
def column (m : List (List ℚ)) (j : Nat) : List ℚ :=
  m.map fun r => r.getD j 0

/-- Per-dimension variances `np.var(mfcc_feat, axis=0)`
(`feature_extraction.py`, line 70); the column count is the row width. -/
def featureVariances (m : List (List ℚ)) : List ℚ :=
  (List.range (m.headD []).length).map fun j => npVar (column m j)

/-- The guard `np.all(feature_variances < 1e-4)` (`feature_extraction.py`, line 74)
under which the variance filter is skipped entirely. -/
def lowVarianceFilterSkipped (m : List (List ℚ)) : Bool :=
  (featureVariances m).all fun v => decide (v < 1/10000)

/-- Support mask of `sklearn.feature_selection.VarianceThreshold`, modelled from its
documented contract: a feature (column) whose training-set variance is lower than
the threshold is removed, so the mask keeps column `j` exactly when
`threshold ≤ variance j`. -/
def varianceThresholdSupport (variances : List ℚ) (threshold : ℚ) : List Bool :=
  variances.map fun v => decide (threshold ≤ v)

/-- Column selection of `VarianceThreshold.fit_transform`: every row keeps exactly
the entries whose column is in the support mask. -/
def selectColumns (m : List (List ℚ)) (support : List Bool) : List (List ℚ) :=
  m.map fun r => ((r.zip support).filter fun p => p.2).map fun p => p.1

/-- The low-variance dimension filter of `feature_extraction.py extract_features`
(lines 73-78): skipped entirely when ALL dimensions have variance below `1e-4`,
otherwise `VarianceThreshold(threshold=1e-5)` discards the low-variance columns. -/
def varianceFilter (m : List (List ℚ)) : List (List ℚ) :=
  if lowVarianceFilterSkipped m then m
  else selectColumns m (varianceThresholdSupport (featureVariances m) (1/100000))

/-- C6: the variance filter is skipped (and the matrix passed through unchanged)
exactly when all dimension variances are near zero (below the code's `1e-4` guard);
otherwise the `VarianceThreshold(1e-5)` selection is applied, and its mask discards
column `j` exactly when that column's variance falls below `1e-5`. -/
theorem variance_filter_spec (m : List (List ℚ)) :
    (lowVarianceFilterSkipped m = true ↔ ∀ v ∈ featureVariances m, v < 1/10000) ∧
    (lowVarianceFilterSkipped m = true → varianceFilter m = m) ∧
    (lowVarianceFilterSkipped m = false →
      varianceFilter m =
        selectColumns m (varianceThresholdSupport (featureVariances m) (1/100000)) ∧
      ∀ j, j < (featureVariances m).length →
        ((varianceThresholdSupport (featureVariances m) (1/100000)).getD j true = false ↔
          (featureVariances m).getD j 0 < 1/100000)) := by
  refine ⟨?_, ?_, ?_⟩
  · simp [lowVarianceFilterSkipped, List.all_eq_true]
  · intro h
    simp [varianceFilter, h]
  · intro h
    refine ⟨by simp [varianceFilter, h], ?_⟩
    intro j hj
    rw [varianceThresholdSupport,
      List.getD_eq_getElem _ _ (by simpa using hj),
      List.getD_eq_getElem _ _ hj]
    simp [not_le]

/-- Witness for C6 at the concrete matrix `[[0, 0], [0, 1]]`: column 0 has variance
0 (below `1e-5`, discarded), column 1 has variance `1/4` (at least `1e-4`, so the
filter is applied), and the filtered matrix keeps only column 1. -/
theorem variance_filter_spec_witness :
    lowVarianceFilterSkipped [[0, 0], [0, 1]] = false ∧
    varianceFilter [[0, 0], [0, 1]] =
      selectColumns [[0, 0], [0, 1]]
        (varianceThresholdSupport (featureVariances [[0, 0], [0, 1]]) (1/100000)) ∧
    varianceFilter [[0, 0], [0, 1]] = [[0], [1]] := by
  have hvar : featureVariances [[0, 0], [0, 1]] = [0, 1/4] := by
    norm_num [featureVariances, npVar, column, List.range_succ]
  have hskip : lowVarianceFilterSkipped [[0, 0], [0, 1]] = false := by
    rw [lowVarianceFilterSkipped, hvar]
    norm_num
  have happ := ((variance_filter_spec [[0, 0], [0, 1]]).2.2 hskip).1
  refine ⟨hskip, happ, ?_⟩
  rw [happ, hvar]
  norm_num [varianceThresholdSupport, selectColumns]

/-- NumPy's `np.percentile(xs, q)` with the default linear-interpolation method:
sort ascending, take the virtual rank `q/100 * (n - 1)`, and interpolate linearly
between the neighbouring order statistics. -/
def npPercentile (xs : List ℚ) (q : ℚ) : ℚ :=
  let s := List.insertionSort (fun a b => a ≤ b) xs
  let rank := q / 100 * ((xs.length : ℚ) - 1)
  let lo := (⌊rank⌋).toNat
  let hi := (⌈rank⌉).toNat
  s.getD lo 0 + (rank - (lo : ℚ)) * (s.getD hi 0 - s.getD lo 0)

/-- Threshold calibration, `gmm.py calculate_threshold`: the per-sample scores
`gmm_model.score(feature_set)` (average log-likelihood of each enrollment feature
row under the model, abstracted as `score`) are collected, and the threshold is
their 90th percentile minus the margin `6.0`.  Returns the pair
`(threshold, log_likelihoods)` as the source does. -/
def calculate_threshold (score : List ℚ → ℚ) (features : List (List ℚ)) :
    ℚ × List ℚ :=
  let log_likelihoods := features.map score
  (npPercentile log_likelihoods 90 - 6, log_likelihoods)

/-- C3: for every model scorer and non-empty enrollment feature collection the
calibrated threshold is the 90th percentile of the per-sample average
log-likelihoods minus the margin 6.0, and on the fixture log-likelihood list
`[-10, -12, -9, -15, -8, -11, -13, -9, -10, -14]` it equals the deterministic value
`-149/10 = -14.9` (the 90th percentile `-8.9` minus `6.0`). -/
theorem calculate_threshold_spec (score : List ℚ → ℚ) (features : List (List ℚ))
    (h : features ≠ []) :
    (calculate_threshold score features).1 = npPercentile (features.map score) 90 - 6 ∧
    (features.map score = [-10, -12, -9, -15, -8, -11, -13, -9, -10, -14] →
      (calculate_threshold score features).1 = -149/10) := by
  refine ⟨rfl, ?_⟩
  intro hfix
  have : (calculate_threshold score features).1 = npPercentile (features.map score) 90 - 6 := rfl
  rw [this, hfix]
  have hsorted : List.insertionSort (fun a b => a ≤ b)
      ([-10, -12, -9, -15, -8, -11, -13, -9, -10, -14] : List ℚ) =
      [-15, -14, -13, -12, -11, -10, -10, -9, -9, -8] := by
    norm_num [List.insertionSort, List.orderedInsert]
  rw [npPercentile]
  rw [hsorted]
  have h9 : (⌈(81:ℚ)/10⌉).toNat = 9 := by
    have hc : (⌈(81:ℚ)/10⌉ : ℤ) = 9 := by
      rw [Int.ceil_eq_iff]
      norm_num
    rw [hc]
    rfl
  have h8 : Int.toNat 8 = 8 := rfl
  norm_num [h9, h8, List.getD, List.getElem_cons_zero, List.getElem_cons_succ]

/-- Witness for C3 with the fixture scores realised by ten one-frame feature sets
whose model score is the frame's head entry. -/
theorem calculate_threshold_spec_witness :
    ([[-10], [-12], [-9], [-15], [-8], [-11], [-13], [-9], [-10], [-14]] : List (List ℚ)) ≠ [] ∧
    List.map (fun r => r.headD 0)
      ([[-10], [-12], [-9], [-15], [-8], [-11], [-13], [-9], [-10], [-14]] : List (List ℚ)) =
      [-10, -12, -9, -15, -8, -11, -13, -9, -10, -14] ∧
    (calculate_threshold (fun r => r.headD 0)
      [[-10], [-12], [-9], [-15], [-8], [-11], [-13], [-9], [-10], [-14]]).1 = -149/10 := by
  have hmap : List.map (fun r => r.headD 0)
      ([[-10], [-12], [-9], [-15], [-8], [-11], [-13], [-9], [-10], [-14]] : List (List ℚ)) =
      [-10, -12, -9, -15, -8, -11, -13, -9, -10, -14] := by
    simp
  exact ⟨by simp, hmap,
    (calculate_threshold_spec (fun r => r.headD 0)
      [[-10], [-12], [-9], [-15], [-8], [-11], [-13], [-9], [-10], [-14]] (by simp)).2 hmap⟩

/-- Constructor arguments passed to `sklearn.mixture.GaussianMixture` by
`UBM.py train_ubm`. -/
structure GaussianMixtureArgs where
  n_components : Nat
  covariance_type : String
  max_iter : Nat
  n_init : Nat
  reg_covar : ℚ
deriving DecidableEq

/-- UBM training, `UBM.py train_ubm(features, n_components=32, max_iter=200,
patience=10)`.  The body initialises the locals `best_log_likelihood = -np.inf` and
`no_improvement_count = 0` and then calls `GaussianMixture(...).fit(features)`; the
fit (all of sklearn's EM) is abstracted as the oracle `fit`.  Neither `patience`
nor the two counters is ever read again, so the result cannot depend on them. -/
def train_ubm {M : Type} (fit : GaussianMixtureArgs → List (List ℚ) → M)
    (features : List (List ℚ)) (n_components max_iter patience : Nat) : M :=
  let best_log_likelihood : WithBot ℚ := ⊥
  let no_improvement_count : Nat := 0
  fit { n_components := n_components, covariance_type := "diag",
        max_iter := max_iter, n_init := 5, reg_covar := 1/1000000 } features

/-- C7: UBM training is invariant in the early-stopping `patience` parameter — for
every EM oracle, feature set and configuration, any two patience values produce the
identical trained model, because `patience` (and the initialised
`best_log_likelihood` / `no_improvement_count` counters) are never consulted. -/
theorem train_ubm_patience_never_enforced {M : Type}
    (fit : GaussianMixtureArgs → List (List ℚ) → M) (features : List (List ℚ))
    (n_components max_iter p₁ p₂ : Nat) :
    train_ubm fit features n_components max_iter p₁ =
      train_ubm fit features n_components max_iter p₂ := rfl

/-- EM iteration of `GaussianMixture.fit` specialised to a single mixture component
(`n_components = 1`) in one dimension: with one component the E-step posterior
responsibility of every sample is identically 1 (the softmax over a single
component), so the M-step mean `sum_i resp_i * x_i / sum_i resp_i` is the plain
sample mean of the data, whatever the current mean is. -/
def emStepMeanK1 (xs : List ℚ) (_currentMean : ℚ) : ℚ :=
  xs.sum / (xs.length : ℚ)

/-- Mean after `GaussianMixture.fit`: at most `maxIter` EM iterations from the
initial mean (sklearn's tolerance-based stop changes nothing here, because the
iterate is already a fixed point after the first step). -/
def fitMeanK1 (xs : List ℚ) (initMean : ℚ) (maxIter : Nat) : ℚ :=
  (emStepMeanK1 xs)^[maxIter] initMean

/-- Adapted mean computed by `gmm.py train_gmm` for a one-component model in one
dimension: the new GMM is initialised at the UBM mean (`means_init=ubm_model.means_`)
and then fully re-fitted on the enrollment features (`gmm_model.fit(features)`,
`max_iter=200`).  No relevance factor and no blending with the UBM parameters occur
anywhere in `train_gmm`. -/
def train_gmm_meanK1 (ubmMean : ℚ) (features : List ℚ) : ℚ :=
  fitMeanK1 features ubmMean 200

theorem fitMeanK1_succ_eq_sampleMean (xs : List ℚ) (initMean : ℚ) :
    ∀ n : Nat, fitMeanK1 xs initMean (n + 1) = xs.sum / (xs.length : ℚ) := by
  intro n
  induction n generalizing initMean with
  | zero => rfl
  | succ k ih =>
    rw [fitMeanK1, Function.iterate_succ_apply]
    exact ih (emStepMeanK1 xs initMean)

/-- C4 counterexample: with a one-component UBM of mean 100 and the enrollment data
`[2, 2]` (responsibility-weighted count `n = 2`, empirical mean `2`), `train_gmm`
produces the adapted mean `2` — exactly the empirical mean — and no positive
relevance factor `r` makes the MAP blend
`α·empirical + (1 − α)·ubm` with `α = n/(n + r)` equal to that output. -/
theorem train_gmm_map_blend_counterexample :
    train_gmm_meanK1 100 [2, 2] = 2 ∧
    ¬ ∃ r : ℚ, 0 < r ∧
        train_gmm_meanK1 100 [2, 2] =
          (2 / (2 + r)) * 2 + (1 - 2 / (2 + r)) * 100 := by
  have hval : train_gmm_meanK1 100 [2, 2] = 2 := by
    rw [train_gmm_meanK1, fitMeanK1_succ_eq_sampleMean [2, 2] 100 199]
    norm_num
  refine ⟨hval, ?_⟩
  rintro ⟨r, hr, heq⟩
  rw [hval] at heq
  have h2r : (2 + r) ≠ 0 := by positivity
  field_simp at heq
  linarith

/-- C4 amended: `train_gmm` does not blend with the UBM at all — the fitted mean is
the empirical mean of the enrollment data, for every UBM mean (one-component,
one-dimensional instance of the full-EM refit the source performs). -/
theorem train_gmm_mean_ignores_ubm (ubmMean : ℚ) (features : List ℚ)
    (h : features ≠ []) :
    train_gmm_meanK1 ubmMean features = features.sum / (features.length : ℚ) := by
  rw [train_gmm_meanK1, fitMeanK1_succ_eq_sampleMean features ubmMean 199]

/-- Witness for the amended C4 at UBM mean 100 and enrollment data `[2, 2]`. -/
theorem train_gmm_mean_ignores_ubm_witness :
    ([2, 2] : List ℚ) ≠ [] ∧
    train_gmm_meanK1 100 [2, 2] = ([2, 2] : List ℚ).sum / ((([2, 2] : List ℚ).length : Nat) : ℚ) :=
  ⟨by simp, train_gmm_mean_ignores_ubm 100 [2, 2] (by simp)⟩

/-- Decision of `speaker_model.py SpeakerVerification.verify_speaker`: the
SpeechBrain cosine similarity is abstracted as `sim`; the verdict is the STRICT
comparison `similarity > threshold` (line 74), returned with the similarity. -/
def speakerVerificationVerify (sim : List ℚ → List ℚ → ℚ)
    (enrolled test : List ℚ) (threshold : ℚ) : Bool × ℚ :=
  let similarity := sim enrolled test
  (decide (threshold < similarity), similarity)

/-- Decision returned by `voice_auth.py authenticate_user` once the cosine score
between the enrolled and the test embedding has been computed: `score >= threshold`
(line 40, default threshold 0.82). -/
def authenticateUserDecision (score threshold : ℚ) : Bool :=
  decide (threshold ≤ score)

/-- State of a `VoiceVerifier` (`voice_verifier.py`) together with the persisted
artifacts it can see: the in-memory caches `enrolled_speakers` and `thresholds`,
and the on-disk stores — `{username}_embedding.pt` files, `{username}_threshold.json`
records, and the serialized mixture models of `gmm.py save_gmm_model`.  Association
lists play the role of dicts and of the model directory. -/
structure VerifierState where
  enrolledSpeakers : List (String × List ℚ)
  thresholds : List (String × ℚ)
  diskEmbedding : List (String × List ℚ)
  diskThreshold : List (String × ℚ)
  diskGmm : List (String × List ℚ)
deriving DecidableEq

/-- The dict returned by `VoiceVerifier.verify_speaker`: `verified` is always
present; `confidence` and `threshold` only on the success path; `error` only on the
failure paths. -/
structure VerifyResult where
  verified : Bool
  confidence : Option ℚ
  threshold : Option ℚ
  error : Option String
deriving DecidableEq

/-- Exception text `str(e)` for the embedded NumPy/Python exceptions. -/
def pyErrorMessage : PyError → String
  | .zeroDivisionError => "integer division or modulo by zero"
  | .valueErrorSectionsNotPositive => "number sections must be larger than 0."
  | .valueErrorEmptyConcat => "need at least one array to concatenate"

/-- Step 1 of `VoiceVerifier.verify_speaker` (lines 87-97): if `username` is not in
the in-memory cache, both persisted artifacts must exist, in which case they are
loaded into the caches; otherwise the caller gets the not-enrolled result.  Returns
the enrolled embedding and the (possibly updated) state, or `none` when the speaker
is not enrolled. -/
def resolveEnrolled (st : VerifierState) (username : String) :
    Option (List ℚ × VerifierState) :=
  match st.enrolledSpeakers.lookup username with
  | some emb => some (emb, st)
  | none =>
    match st.diskEmbedding.lookup username, st.diskThreshold.lookup username with
    | some emb, some thr =>
      some (emb, { st with
        enrolledSpeakers := (username, emb) :: st.enrolledSpeakers,
        thresholds := (username, thr) :: st.thresholds })
    | _, _ => none

/-- `voice_verifier.py VoiceVerifier.verify_speaker(username, audio_path)`.
`loadAudio` abstracts `SpeakerVerification.load_audio` (librosa; may raise, modelled
as `Except`), the VAD is the embedded `detect_speech` at 16 kHz with its Python
defaults, and `embed`/`sim` abstract the SpeechBrain embedding and similarity.  The
surrounding `try/except` turns every raised exception into the structured dict
`{'verified': False, 'error': str(e)}`; a missing model yields
`{'verified': False, 'error': 'Speaker not enrolled'}`; on success the verdict is
the strict comparison of `speakerVerificationVerify` against the stored threshold
(`self.thresholds.get(username, 0.7)`). -/
def voiceVerifierVerifySpeaker (loadAudio : String → Except String (List ℚ))
    (embed : List ℚ → List ℚ) (sim : List ℚ → List ℚ → ℚ)
    (st : VerifierState) (username audioPath : String) :
    VerifyResult × VerifierState :=
  match resolveEnrolled st username with
  | none =>
    ({ verified := false, confidence := none, threshold := none,
       error := some "Speaker not enrolled" }, st)
  | some (enrolledEmb, st') =>
    match loadAudio audioPath with
    | .error e =>
      ({ verified := false, confidence := none, threshold := none,
         error := some e }, st')
    | .ok waveform =>
      match detect_speech waveform 16000 (1/50) (1/100) with
      | .error e =>
        ({ verified := false, confidence := none, threshold := none,
           error := some (pyErrorMessage e) }, st')
      | .ok speechSignal =>
        if speechSignal.isEmpty then
          ({ verified := false, confidence := none, threshold := none,
             error := some "No speech detected" }, st')
        else
          let threshold := (st'.thresholds.lookup username).getD (7/10)
          let res := speakerVerificationVerify sim enrolledEmb (embed speechSignal) threshold
          ({ verified := res.1, confidence := some res.2, threshold := some threshold,
             error := none }, st')

theorem resolveEnrolled_disk {st : VerifierState} {username : String}
    {emb : List ℚ} {st' : VerifierState}
    (h : resolveEnrolled st username = some (emb, st')) :
    st'.diskEmbedding = st.diskEmbedding ∧ st'.diskThreshold = st.diskThreshold ∧
      st'.diskGmm = st.diskGmm := by
  unfold resolveEnrolled at h
  cases h1 : st.enrolledSpeakers.lookup username with
  | some e =>
    rw [h1] at h
    simp only [Option.some.injEq, Prod.mk.injEq] at h
    rw [← h.2]
    exact ⟨rfl, rfl, rfl⟩
  | none =>
    rw [h1] at h
    cases h2 : st.diskEmbedding.lookup username with
    | none => rw [h2] at h; simp at h
    | some e2 =>
      cases h3 : st.diskThreshold.lookup username with
      | none => rw [h2, h3] at h; simp at h
      | some t3 =>
        rw [h2, h3] at h
        simp only [Option.some.injEq, Prod.mk.injEq] at h
        rw [← h.2]
        exact ⟨rfl, rfl, rfl⟩

/-- C9: verification never mutates a stored model artifact — the persisted speaker
embeddings, the persisted threshold records and the serialized mixture models are
identical before and after `VoiceVerifier.verify_speaker`, whichever of the
success, not-enrolled, no-speech and exception paths is taken (only the in-memory
caches may gain an entry loaded FROM disk). -/
theorem verify_speaker_no_disk_mutation (loadAudio : String → Except String (List ℚ))
    (embed : List ℚ → List ℚ) (sim : List ℚ → List ℚ → ℚ)
    (st : VerifierState) (username audioPath : String) :
    (voiceVerifierVerifySpeaker loadAudio embed sim st username audioPath).2.diskEmbedding =
      st.diskEmbedding ∧
    (voiceVerifierVerifySpeaker loadAudio embed sim st username audioPath).2.diskThreshold =
      st.diskThreshold ∧
    (voiceVerifierVerifySpeaker loadAudio embed sim st username audioPath).2.diskGmm =
      st.diskGmm := by
  cases hres : resolveEnrolled st username with
  | none => simp [voiceVerifierVerifySpeaker, hres]
  | some p =>
    obtain ⟨emb, st'⟩ := p
    have hdisk := resolveEnrolled_disk hres
    cases hload : loadAudio audioPath with
    | error e => simpa [voiceVerifierVerifySpeaker, hres, hload] using hdisk
    | ok waveform =>
      cases hvad : detect_speech waveform 16000 (1/50) (1/100) with
      | error e =>
        simp only [voiceVerifierVerifySpeaker, hres, hload, hvad]
        exact hdisk
      | ok speechSignal =>
        cases hs : speechSignal.isEmpty <;>
          · simp only [voiceVerifierVerifySpeaker, hres, hload, hvad, hs,
              Bool.false_eq_true, if_false, if_true]
            exact hdisk

/-- C8: verification failures come back as structured results, never as raised
faults: a username with neither a cached nor a fully persisted model yields the
`Speaker not enrolled` result with `verified = false`; an audio-loading exception
yields `verified = false` with its message as the error; a VAD exception yields
`verified = false` with a present error description. -/
theorem verify_speaker_structured_errors (loadAudio : String → Except String (List ℚ))
    (embed : List ℚ → List ℚ) (sim : List ℚ → List ℚ → ℚ)
    (st : VerifierState) (username audioPath : String) :
    (st.enrolledSpeakers.lookup username = none →
      (st.diskEmbedding.lookup username = none ∨ st.diskThreshold.lookup username = none) →
      (voiceVerifierVerifySpeaker loadAudio embed sim st username audioPath).1 =
        { verified := false, confidence := none, threshold := none,
          error := some "Speaker not enrolled" }) ∧
    (∀ msg, loadAudio audioPath = Except.error msg →
      (voiceVerifierVerifySpeaker loadAudio embed sim st username audioPath).1.verified = false ∧
      (voiceVerifierVerifySpeaker loadAudio embed sim st username audioPath).1.error.isSome) ∧
    (∀ waveform e, loadAudio audioPath = Except.ok waveform →
      detect_speech waveform 16000 (1/50) (1/100) = Except.error e →
      (voiceVerifierVerifySpeaker loadAudio embed sim st username audioPath).1.verified = false ∧
      (voiceVerifierVerifySpeaker loadAudio embed sim st username audioPath).1.error.isSome) := by
  refine ⟨?_, ?_, ?_⟩
  · intro h1 h2
    have hres : resolveEnrolled st username = none := by
      unfold resolveEnrolled
      rw [h1]
      rcases h2 with h2 | h2
      · rw [h2]
      · cases h3 : st.diskEmbedding.lookup username <;> rw [h2]
    simp [voiceVerifierVerifySpeaker, hres]
  · intro msg hload
    cases hres : resolveEnrolled st username with
    | none => simp [voiceVerifierVerifySpeaker, hres]
    | some p =>
      obtain ⟨emb, st'⟩ := p
      simp [voiceVerifierVerifySpeaker, hres, hload]
  · intro waveform e hload hvad
    cases hres : resolveEnrolled st username with
    | none => simp [voiceVerifierVerifySpeaker, hres]
    | some p =>
      obtain ⟨emb, st'⟩ := p
      simp only [voiceVerifierVerifySpeaker, hres, hload, hvad]
      simp

/-- C2 counterexample: with the stored threshold `0.7` and a computed similarity
score of exactly `0.7`, the score satisfies `score ≥ threshold`, yet
`SpeakerVerification.verify_speaker` reports `verified = false`, because the code
compares strictly (`similarity > threshold`). -/
theorem verify_decision_at_threshold_counterexample :
    (7:ℚ)/10 ≥ 7/10 ∧
    (speakerVerificationVerify (fun _ _ => 7/10) [1] [1] (7/10)).1 = false := by
  constructor
  · norm_num
  · simp only [speakerVerificationVerify]
    rw [decide_eq_false_iff_not]
    norm_num

/-- C2 amended: on the successful verification path the decision is the STRICT
comparison `verified = (score > stored threshold)` (so a score exactly equal to the
threshold is rejected); the separate legacy path `voice_auth.py authenticate_user`
is the one that uses `score ≥ threshold`. -/
theorem verification_decision_strict (loadAudio : String → Except String (List ℚ))
    (embed : List ℚ → List ℚ) (sim : List ℚ → List ℚ → ℚ)
    (st : VerifierState) (username audioPath : String)
    (emb waveform speechSignal : List ℚ)
    (henr : st.enrolledSpeakers.lookup username = some emb)
    (hload : loadAudio audioPath = Except.ok waveform)
    (hvad : detect_speech waveform 16000 (1/50) (1/100) = Except.ok speechSignal)
    (hne : speechSignal ≠ []) :
    (voiceVerifierVerifySpeaker loadAudio embed sim st username audioPath).1.verified =
      decide ((st.thresholds.lookup username).getD (7/10) < sim emb (embed speechSignal)) ∧
    ∀ score threshold : ℚ,
      authenticateUserDecision score threshold = decide (threshold ≤ score) := by
  constructor
  · have hres : resolveEnrolled st username = some (emb, st) := by
      unfold resolveEnrolled
      rw [henr]
    have hsE : speechSignal.isEmpty = false := by
      cases speechSignal with
      | nil => exact absurd rfl hne
      | cons a t => rfl
    simp only [voiceVerifierVerifySpeaker, hres, hload, hvad, hsE, Bool.false_eq_true,
      if_false]
    rfl
  · intro score threshold
    rfl

theorem detect_speech_replicate320 :
    detect_speech (List.replicate 320 (1:ℚ)) 16000 (1/50) (1/100) =
      Except.ok (List.replicate 320 (1:ℚ)) := by
  have hfs : vadFrameSize (1/50) 16000 = 320 := by
    norm_num [vadFrameSize]
    rfl
  have hlen : (List.replicate 320 (1:ℚ)).length = 320 := List.length_replicate 320 1
  have hframes : vadFrames (List.replicate 320 (1:ℚ)) 320 = [List.replicate 320 1] := by
    rw [vadFrames, hlen]
    norm_num [chunkList]
  have hE : frameEnergy (List.replicate 320 (1:ℚ)) = 1 := by
    rw [frameEnergy, hlen]
    simp only [List.map_replicate, one_mul, List.sum_replicate, nsmul_eq_mul]
    norm_num
  have hmax : vadMaxEnergy (List.replicate 320 (1:ℚ)) 320 = 1 := by
    rw [vadMaxEnergy, vadEnergies, hframes]
    simp only [List.map_cons, List.map_nil, hE]
    rfl
  have hkept : vadKeptFrames (List.replicate 320 (1:ℚ)) 320 (1/100) =
      [List.replicate 320 1] := by
    rw [vadKeptFrames, hframes, hmax]
    simp only [List.filter_cons, List.filter_nil, hE]
    norm_num
  unfold detect_speech
  rw [hfs, hlen, hkept]
  norm_num

/-- Witness for C8: a state whose only model belongs to `alice`.  Verifying `bob`
returns the not-enrolled result; verifying `alice` while audio loading raises
`boom` returns `verified = false` with that error message. -/
theorem verify_speaker_structured_errors_witness :
    (voiceVerifierVerifySpeaker (fun _ => Except.error "boom") id (fun _ _ => 1)
        ⟨[("alice", [1])], [], [], [], []⟩ "bob" "test.wav").1 =
      { verified := false, confidence := none, threshold := none,
        error := some "Speaker not enrolled" } ∧
    (voiceVerifierVerifySpeaker (fun _ => Except.error "boom") id (fun _ _ => 1)
        ⟨[("alice", [1])], [], [], [], []⟩ "alice" "test.wav").1.verified = false ∧
    (voiceVerifierVerifySpeaker (fun _ => Except.error "boom") id (fun _ _ => 1)
        ⟨[("alice", [1])], [], [], [], []⟩ "alice" "test.wav").1.error.isSome := by
  refine ⟨?_, ?_⟩
  · exact (verify_speaker_structured_errors (fun _ => Except.error "boom") id
      (fun _ _ => 1) ⟨[("alice", [1])], [], [], [], []⟩ "bob" "test.wav").1
      rfl (Or.inl rfl)
  · exact (verify_speaker_structured_errors (fun _ => Except.error "boom") id
      (fun _ _ => 1) ⟨[("alice", [1])], [], [], [], []⟩ "alice" "test.wav").2.1
      "boom" rfl

/-- Witness for the amended C2: `alice` is enrolled with stored threshold `1/2`,
the audio loads as 320 samples of amplitude 1, the VAD keeps them all, and the
verdict equals the strict comparison of the stored threshold with the similarity. -/
theorem verification_decision_strict_witness :
    (voiceVerifierVerifySpeaker (fun _ => Except.ok (List.replicate 320 (1:ℚ))) id
        (fun _ _ => 1) ⟨[("alice", [2])], [("alice", 1/2)], [], [], []⟩
        "alice" "test.wav").1.verified =
      decide ((((⟨[("alice", [2])], [("alice", 1/2)], [], [], []⟩ :
          VerifierState).thresholds.lookup "alice").getD (7/10)) <
        (fun _ _ => (1:ℚ)) [2] (id (List.replicate 320 (1:ℚ)))) ∧
    ∀ score threshold : ℚ,
      authenticateUserDecision score threshold = decide (threshold ≤ score) :=
  verification_decision_strict (fun _ => Except.ok (List.replicate 320 (1:ℚ))) id
    (fun _ _ => 1) ⟨[("alice", [2])], [("alice", 1/2)], [], [], []⟩
    "alice" "test.wav" [2] (List.replicate 320 (1:ℚ)) (List.replicate 320 (1:ℚ))
    rfl rfl detect_speech_replicate320 (by
      intro h
      have hlen := congrArg List.length h
      rw [List.length_replicate] at hlen
      exact absurd hlen (by norm_num))
